import Mathlib

/-!
Shallow embedding of the eco-tracker carbon-footprint core
(`src/carbon_calculator.py`, `src/ai_recommendations.py`, `src/ml_models.py`)
over exact rational arithmetic, together with theorems settling the
specification claims about the calculator, the recommendation engine,
the synthetic-data generator, the trend forecaster, and the predictor
training/prediction error paths.

Conventions:
* Python `float` values are modelled as `ℚ` (exact arithmetic).
* Python dicts are modelled as association lists (`List (String × _)`)
  in insertion order, matching Python's guaranteed dict iteration order.
* Python exceptions are modelled by `Except PyError`; code that cannot
  raise is given a plain return type.
* Randomness (numpy draws) is modelled by explicit draw parameters, so
  theorems quantify over every possible sequence of random values.
-/

/-- Python exception values relevant to this codebase. -/
inductive PyError where
  | valueError (msg : String)
  | keyError (key : String)
  | indexError (msg : String)
  | typeError (msg : String)
deriving DecidableEq, Repr

/-- The Python exception class name of an error value. -/
def PyError.kind : PyError → String
  | .valueError _ => "ValueError"
  | .keyError _ => "KeyError"
  | .indexError _ => "IndexError"
  | .typeError _ => "TypeError"

/-- Exception class name of an `Except PyError` result (`""` on success). -/
def errKind : Except PyError ℚ → String
  | .error e => e.kind
  | .ok _ => ""

/-- Python `str.lower()` restricted to ASCII, as used on the ASCII rule-table texts. -/
def lowerStr (s : String) : String := String.mk (s.toList.map Char.toLower)

/-- Python's substring test `pat in hay` on character lists. -/
def listContainsSub (hay pat : List Char) : Bool :=
  match hay with
  | [] => pat.isEmpty
  | c :: t => pat.isPrefixOf (c :: t) || listContainsSub t pat

/-- Python's substring test `pat in hay` on strings. -/
def strContainsSub (hay pat : String) : Bool :=
  listContainsSub hay.toList pat.toList

/-- Python `int(q)`: truncation toward zero. -/
def pyInt (q : ℚ) : Int := if q < 0 then -((-q).floor) else q.floor

/-- Python `str.title()` for the single lowercase words used as category names. -/
def pyTitle (s : String) : String :=
  match s.toList with
  | [] => ""
  | c :: t => String.mk (c.toUpper :: t.map Char.toLower)

/-! ## Emission calculator (`src/carbon_calculator.py`) -/

/-- `emission_factors['transportation']` (kg CO2 per mile). -/
def emission_factors_transportation : List (String × ℚ) :=
  [("car_gasoline", 0.411), ("car_diesel", 0.364), ("car_electric", 0.1),
   ("bus", 0.089), ("train", 0.041), ("plane_domestic", 0.255),
   ("plane_international", 0.195), ("motorcycle", 0.197),
   ("bicycle", 0.0), ("walking", 0.0)]

/-- `emission_factors['energy']`. -/
def emission_factors_energy : List (String × ℚ) :=
  [("electricity", 0.92), ("natural_gas", 5.3), ("heating_oil", 10.15),
   ("propane", 5.68), ("coal", 2.23)]

/-- `emission_factors['food']` (kg CO2 per kg). -/
def emission_factors_food : List (String × ℚ) :=
  [("beef", 27.0), ("lamb", 39.2), ("pork", 12.1), ("chicken", 6.9),
   ("fish", 6.1), ("dairy", 3.2), ("eggs", 4.8), ("vegetables", 2.0),
   ("fruits", 1.1), ("grains", 2.5), ("processed_food", 5.8)]

/-- `emission_factors['waste']` (kg CO2 per kg waste). -/
def emission_factors_waste : List (String × ℚ) :=
  [("landfill", 0.57), ("recycling", 0.0), ("composting", 0.0),
   ("incineration", 0.7)]

/-- One transportation-mode entry: `details.get('distance', 0)`, `details.get('frequency', 1)`. -/
structure TransportDetails where
  distance : Option ℚ
  frequency : Option ℚ
deriving DecidableEq

/-- `ActivityInput`: the nested `user_data` dict; a category key may be absent. -/
structure ActivityInput where
  transportation : Option (List (String × TransportDetails))
  energy : Option (List (String × ℚ))
  food : Option (List (String × ℚ))
  waste : Option (List (String × ℚ))

/-- `calculate_transportation_footprint`: skips modes absent from the factor table. -/
def calculate_transportation_footprint
    (transport_data : List (String × TransportDetails)) : ℚ :=
  transport_data.foldl (fun total_emissions p =>
    match emission_factors_transportation.lookup p.1 with
    | some factor =>
        total_emissions + (p.2.distance.getD 0) * (p.2.frequency.getD 1) * factor
    | none => total_emissions) 0

/-- `calculate_energy_footprint`: skips sources absent from the factor table. -/
def calculate_energy_footprint (energy_data : List (String × ℚ)) : ℚ :=
  energy_data.foldl (fun total_emissions p =>
    match emission_factors_energy.lookup p.1 with
    | some factor => total_emissions + p.2 * factor
    | none => total_emissions) 0

/-- `calculate_food_footprint`: skips food types absent from the factor table. -/
def calculate_food_footprint (food_data : List (String × ℚ)) : ℚ :=
  food_data.foldl (fun total_emissions p =>
    match emission_factors_food.lookup p.1 with
    | some factor => total_emissions + p.2 * factor
    | none => total_emissions) 0

/-- `calculate_waste_footprint`: skips disposal methods absent from the factor table. -/
def calculate_waste_footprint (waste_data : List (String × ℚ)) : ℚ :=
  waste_data.foldl (fun total_emissions p =>
    match emission_factors_waste.lookup p.1 with
    | some factor => total_emissions + p.2 * factor
    | none => total_emissions) 0

/-- `FootprintBreakdown`: the dict built by `calculate_total_footprint`;
category keys are present only if present in the input, `total` always is. -/
structure FootprintBreakdown where
  transportation : Option ℚ
  energy : Option ℚ
  food : Option ℚ
  waste : Option ℚ
  total : ℚ
deriving DecidableEq

/-- `calculate_total_footprint`: per-category results for the categories present
in the input, and `total = sum(footprint_breakdown.values())` over the values
inserted so far (the four category slots). -/
def calculate_total_footprint (user_data : ActivityInput) : FootprintBreakdown :=
  let t := user_data.transportation.map calculate_transportation_footprint
  let e := user_data.energy.map calculate_energy_footprint
  let f := user_data.food.map calculate_food_footprint
  let w := user_data.waste.map calculate_waste_footprint
  -- sum(footprint_breakdown.values()) in dict insertion order
  let vals := t.toList ++ e.toList ++ f.toList ++ w.toList
  { transportation := t, energy := e, food := f, waste := w, total := vals.sum }

/-! ## Recommendation engine (`src/ai_recommendations.py`) -/

/-- `self.recommendation_database[category][level]` (empty for keys Python
would reject with `KeyError`; only the four categories are ever queried). -/
def recommendation_database (category level : String) : List String :=
  if category = "transportation" then
    if level = "high_emissions" then
      ["Switch to an electric or hybrid vehicle - can reduce emissions by 40-60%",
       "Use public transportation for daily commutes",
       "Implement carpooling or ride-sharing for regular trips",
       "Work from home 2-3 days per week if possible",
       "Combine multiple errands into single trips",
       "Consider cycling or walking for short distances (<3 miles)",
       "Plan vacations closer to home to reduce flight emissions",
       "Use video conferencing instead of business travel"]
    else if level = "medium_emissions" then
      ["Maintain your vehicle properly for better fuel efficiency",
       "Plan routes efficiently to minimize driving time",
       "Use eco-driving techniques (smooth acceleration, steady speeds)",
       "Consider upgrading to a more fuel-efficient vehicle",
       "Use public transport for longer trips"]
    else if level = "low_emissions" then
      ["Great job! Your transportation emissions are low",
       "Continue using sustainable transport options",
       "Share your transportation habits with friends and family"]
    else []
  else if category = "energy" then
    if level = "high_emissions" then
      ["Switch to renewable energy sources (solar, wind)",
       "Improve home insulation to reduce heating/cooling needs",
       "Upgrade to energy-efficient appliances (ENERGY STAR rated)",
       "Install a programmable thermostat",
       "Replace incandescent bulbs with LED lighting",
       "Unplug electronics when not in use",
       "Use cold water for washing clothes when possible",
       "Consider a heat pump for heating and cooling"]
    else if level = "medium_emissions" then
      ["Set thermostat 2-3 degrees lower in winter, higher in summer",
       "Use natural light during the day",
       "Air-dry clothes instead of using the dryer",
       "Seal air leaks around windows and doors"]
    else if level = "low_emissions" then
      ["Excellent energy management!",
       "Continue your energy-efficient practices",
       "Consider sharing tips with neighbors"]
    else []
  else if category = "food" then
    if level = "high_emissions" then
      ["Reduce red meat consumption (beef, lamb) by 50%",
       "Try \x27Meatless Monday\x27 or plant-based meals 2-3 times per week",
       "Buy local and seasonal produce when possible",
       "Reduce food waste through meal planning",
       "Grow your own herbs and vegetables",
       "Choose organic and sustainably produced foods",
       "Reduce dairy consumption or try plant-based alternatives",
       "Avoid heavily processed and packaged foods"]
    else if level = "medium_emissions" then
      ["Plan meals in advance to reduce waste",
       "Choose chicken or fish over red meat",
       "Buy from local farmers markets",
       "Compost food scraps"]
    else if level = "low_emissions" then
      ["Your food choices are climate-friendly!",
       "Keep up the sustainable eating habits",
       "Consider sharing recipes with others"]
    else []
  else if category = "waste" then
    if level = "high_emissions" then
      ["Increase recycling rate to 80% or higher",
       "Start composting organic waste",
       "Reduce single-use items (bags, bottles, containers)",
       "Buy products with minimal packaging",
       "Donate or sell items instead of throwing them away",
       "Choose reusable alternatives (water bottles, shopping bags)",
       "Repair items instead of replacing them",
       "Buy second-hand when possible"]
    else if level = "medium_emissions" then
      ["Improve sorting for better recycling",
       "Reduce packaging waste by buying in bulk",
       "Use both sides of paper",
       "Choose products made from recycled materials"]
    else if level = "low_emissions" then
      ["Excellent waste management!",
       "Your waste practices are very sustainable",
       "Help others learn about proper waste disposal"]
    else []
  else []

/-- `self.impact_estimates[category]` (kg CO2/year, negative). -/
def impact_estimates (category : String) : List (String × Int) :=
  if category = "transportation" then
    [("switch_to_electric", -2000), ("work_from_home_2days", -800),
     ("use_public_transport", -1200), ("carpool_regularly", -600),
     ("eco_driving", -300), ("bike_short_trips", -400)]
  else if category = "energy" then
    [("renewable_energy", -1500), ("led_lighting", -200),
     ("efficient_appliances", -500), ("better_insulation", -800),
     ("programmable_thermostat", -300), ("unplug_devices", -150)]
  else if category = "food" then
    [("reduce_meat_50percent", -500), ("local_food", -200),
     ("reduce_food_waste", -300), ("plant_based_2days", -400),
     ("organic_food", -100)]
  else if category = "waste" then
    [("increase_recycling", -200), ("composting", -150),
     ("reduce_single_use", -100), ("buy_second_hand", -80),
     ("repair_vs_replace", -120)]
  else []

/-- `action_mapping[category]` from `_extract_action_key`, in dict insertion
order. Note the `"LED"` keyword is stored with uppercase letters. -/
def action_mapping (category : String) : List (String × String) :=
  if category = "transportation" then
    [("electric", "switch_to_electric"), ("work from home", "work_from_home_2days"),
     ("public", "use_public_transport"), ("carpool", "carpool_regularly"),
     ("eco-driving", "eco_driving"), ("cycling", "bike_short_trips")]
  else if category = "energy" then
    [("renewable", "renewable_energy"), ("LED", "led_lighting"),
     ("appliances", "efficient_appliances"), ("insulation", "better_insulation"),
     ("thermostat", "programmable_thermostat"), ("unplug", "unplug_devices")]
  else if category = "food" then
    [("meat", "reduce_meat_50percent"), ("local", "local_food"),
     ("waste", "reduce_food_waste"), ("plant-based", "plant_based_2days"),
     ("organic", "organic_food")]
  else if category = "waste" then
    [("recycling", "increase_recycling"), ("composting", "composting"),
     ("single-use", "reduce_single_use"), ("second-hand", "buy_second_hand"),
     ("repair", "repair_vs_replace")]
  else []

/-- `_extract_action_key`: lowercases the recommendation text, then returns the
action of the first keyword that is a substring of the lowered text (the keyword
itself is used verbatim); falls back to the first action of the category. -/
def extract_action_key (recommendation category : String) : String :=
  let rec_lower := lowerStr recommendation
  match (action_mapping category).find? (fun kv => strContainsSub rec_lower kv.1) with
  | some kv => kv.2
  | none => ((action_mapping category).map (fun kv => kv.2)).headD ""

/-- Modelled from the spec for comparison with `extract_action_key`: a fully
case-insensitive substring match, lowering the keyword as well as the text
("a keyword matches whenever it occurs in the text in any letter casing"). -/
def extract_action_key_specCI (recommendation category : String) : String :=
  let rec_lower := lowerStr recommendation
  match (action_mapping category).find?
      (fun kv => strContainsSub rec_lower (lowerStr kv.1)) with
  | some kv => kv.2
  | none => ((action_mapping category).map (fun kv => kv.2)).headD ""

/-- `_calculate_priority`: `int(min(e/100, 5) + min(|impact|/500, 5))`. -/
def calculate_priority (current_emissions : ℚ) (impact : Int) : Int :=
  pyInt (min (current_emissions / 100) 5 + min ((|impact| : ℚ) / 500) 5)

/-- `_estimate_difficulty`: keyword heuristic over the lowercased text. -/
def estimate_difficulty (recommendation : String) : String :=
  let rec_lower := lowerStr recommendation
  if ["switch", "install", "upgrade", "renewable"].any
      (fun k => strContainsSub rec_lower k) then "High"
  else if ["reduce", "increase", "improve", "plan"].any
      (fun k => strContainsSub rec_lower k) then "Medium"
  else "Low"

/-- One entry of the list returned by `get_personalized_recommendations`. -/
structure Recommendation where
  category : String
  recommendation : String
  impact_estimate : Int
  priority : Int
  difficulty : String
deriving DecidableEq, Repr

/-- `thresholds[category]` as the pair `(high, medium)`; only ever queried for
the four category keys (Python would raise `KeyError` otherwise). -/
def thresholds (category : String) : ℚ × ℚ :=
  if category = "transportation" then (100, 50)
  else if category = "energy" then (200, 100)
  else if category = "food" then (150, 75)
  else (50, 25)

/-- Loop body of `get_personalized_recommendations` for one non-total category:
classify the level, take the first two database entries, and build the
recommendation records. -/
def recsForCategory (category : String) (emissions : ℚ) : List Recommendation :=
  let th := thresholds category
  let level := if emissions > th.1 then "high_emissions"
    else if emissions > th.2 then "medium_emissions"
    else "low_emissions"
  let category_recs := recommendation_database category level
  (category_recs.take 2).map (fun recText =>
    let action_key := extract_action_key recText category
    let impact := ((impact_estimates category).lookup action_key).getD 0
    { category := pyTitle category, recommendation := recText,
      impact_estimate := impact,
      priority := calculate_priority emissions impact,
      difficulty := estimate_difficulty recText })

/-- One iteration of the `user_footprint.items()` loop: the `total` key is
skipped with `continue`. -/
def recsForItem (p : String × ℚ) : List Recommendation :=
  if p.1 = "total" then [] else recsForCategory p.1 p.2

/-- `user_footprint.items()` for a `FootprintBreakdown`, in the dict insertion
order used by `calculate_total_footprint`. -/
def breakdownItems (fp : FootprintBreakdown) : List (String × ℚ) :=
  (fp.transportation.map (fun v => ("transportation", v))).toList ++
  (fp.energy.map (fun v => ("energy", v))).toList ++
  (fp.food.map (fun v => ("food", v))).toList ++
  (fp.waste.map (fun v => ("waste", v))).toList ++
  [("total", fp.total)]

/-- The Python sort key `(x['priority'], abs(x['impact_estimate']))`. -/
def priorityImpactKey (r : Recommendation) : Int × Int :=
  (r.priority, |r.impact_estimate|)

/-- Strict descending comparison of sort keys (lexicographic). -/
def pairGtB (p q : Int × Int) : Bool :=
  q.1 < p.1 || (p.1 == q.1 && q.2 < p.2)

/-- Non-strict descending order on sort keys (lexicographic). -/
def pairGe (p q : Int × Int) : Prop :=
  q.1 < p.1 ∨ (p.1 = q.1 ∧ q.2 ≤ p.2)

/-- `a` may precede `b` in the descending-sorted output. -/
def recGe (a b : Recommendation) : Prop :=
  pairGe (priorityImpactKey a) (priorityImpactKey b)

/-- Stable descending insertion: places `a` before the first strictly smaller
element, after any element with an equal key. -/
def insertDesc (a : Recommendation) : List Recommendation → List Recommendation
  | [] => [a]
  | b :: t =>
      if pairGtB (priorityImpactKey a) (priorityImpactKey b) then a :: b :: t
      else b :: insertDesc a t

/-- Stable descending sort by `(priority, |impact_estimate|)`: the unique stable
sort, hence the list produced by Python's
`recommendations.sort(key=..., reverse=True)`. -/
def sortDesc (l : List Recommendation) : List Recommendation :=
  l.foldl (fun acc a => insertDesc a acc) []

/-- `get_personalized_recommendations` (its `user_patterns` and `user_goals`
parameters are never read in the body and are omitted): build per-category
recommendations, skip `total`, sort descending by `(priority, |impact|)`,
return the top 8. -/
def get_personalized_recommendations (user_footprint : FootprintBreakdown) :
    List Recommendation :=
  let recommendations := (breakdownItems user_footprint).flatMap recsForItem
  (sortDesc recommendations).take 8

/-- One phase of the action plan. -/
structure Phase where
  focus : String
  actions : List Recommendation
  expected_reduction : Int
deriving DecidableEq, Repr

/-- The dict returned by `generate_action_plan`. -/
structure ActionPlan where
  weeks_1_2 : Phase
  weeks_3_6 : Phase
  weeks_7_12 : Phase
  total_potential_reduction : Int
deriving DecidableEq, Repr

/-- `sum(abs(r['impact_estimate']) for r in l)`. -/
def sumAbsImpact (l : List Recommendation) : Int :=
  (l.map (fun r => |r.impact_estimate|)).sum

/-- `generate_action_plan` (its `timeframe_weeks` parameter is never read in
the body and is omitted): partition by difficulty, select at most 3/3/2
actions, and total the per-phase reductions. -/
def generate_action_plan (recommendations : List Recommendation) : ActionPlan :=
  let easy_wins := recommendations.filter (fun r => r.difficulty == "Low")
  let medium_actions := recommendations.filter (fun r => r.difficulty == "Medium")
  let major_changes := recommendations.filter (fun r => r.difficulty == "High")
  let p1 : Phase := { focus := "Quick Wins", actions := easy_wins.take 3,
                      expected_reduction := sumAbsImpact (easy_wins.take 3) }
  let p2 : Phase := { focus := "Habit Changes", actions := medium_actions.take 3,
                      expected_reduction := sumAbsImpact (medium_actions.take 3) }
  let p3 : Phase := { focus := "Major Improvements", actions := major_changes.take 2,
                      expected_reduction := sumAbsImpact (major_changes.take 2) }
  { weeks_1_2 := p1, weeks_3_6 := p2, weeks_7_12 := p3,
    total_potential_reduction :=
      p1.expected_reduction + p2.expected_reduction + p3.expected_reduction }

/-! ## ML models (`src/ml_models.py`) -/

/-- The fixed 18-field feature schema (the dict keys of the synthetic data,
minus the target). Categorical fields are strings, all others numeric. -/
structure FeatureVector where
  age : ℚ
  income : ℚ
  household_size : ℚ
  location_type : String
  car_miles_per_week : ℚ
  public_transport_usage : ℚ
  flights_per_year : ℚ
  vehicle_type : String
  electricity_kwh_monthly : ℚ
  natural_gas_therms_monthly : ℚ
  home_size_sqft : ℚ
  renewable_energy : ℚ
  meat_meals_per_week : ℚ
  local_food_percentage : ℚ
  organic_food_percentage : ℚ
  waste_kg_per_week : ℚ
  recycling_percentage : ℚ
  composting : ℚ
deriving DecidableEq, Repr

/-- One row of the synthetic dataset: the features plus the computed target. -/
structure Sample extends FeatureVector where
  carbon_footprint : ℚ
deriving DecidableEq, Repr

/-- One sample's worth of numpy random draws in `generate_synthetic_data`.
`np.random.choice` over a k-element array always yields one of its elements,
modelled as a `Fin k` index; the numeric distributions may yield any real,
modelled as arbitrary rationals. -/
structure Draws where
  age : ℚ
  income : ℚ
  household_size : ℚ
  location : Fin 3
  car_miles : ℚ
  public_transport : ℚ
  flights : ℚ
  vehicle : Fin 4
  electricity : ℚ
  natural_gas : ℚ
  home_size : ℚ
  renewable : Fin 2
  meat_meals : ℚ
  local_food : ℚ
  organic_food : ℚ
  waste_kg : ℚ
  recycling : ℚ
  composting : Fin 2
  noise : ℚ

/-- The `['urban', 'suburban', 'rural']` choice array. -/
def locationTypes : List String := ["urban", "suburban", "rural"]

/-- The `['gasoline', 'diesel', 'electric', 'hybrid']` choice array. -/
def vehicleTypes : List String := ["gasoline", "diesel", "electric", "hybrid"]

/-- Element selected by a `location_type` draw. -/
def locString (i : Fin 3) : String :=
  match i with
  | ⟨0, _⟩ => "urban"
  | ⟨1, _⟩ => "suburban"
  | ⟨2, _⟩ => "rural"

/-- Element selected by a `vehicle_type` draw. -/
def vehString (i : Fin 4) : String :=
  match i with
  | ⟨0, _⟩ => "gasoline"
  | ⟨1, _⟩ => "diesel"
  | ⟨2, _⟩ => "electric"
  | ⟨3, _⟩ => "hybrid"

/-- The `[0, 1]` choice arrays (`renewable_energy`, `composting`) as rationals. -/
def binChoice (i : Fin 2) : ℚ := (i : ℕ)

/-- One row of `generate_synthetic_data`: the feature draws, and the target
computed by the fixed generating formula, plus noise, floored at 1000 by
`np.maximum(df['carbon_footprint'], 1000)`. -/
def mkSample (d : Draws) : Sample :=
  let renewable := binChoice d.renewable
  let base : ℚ :=
    d.car_miles * 52 * 0.411 +
    d.flights * 1000 * 0.225 +
    d.electricity * 12 * 0.92 * (1 - renewable * 0.8) +
    d.natural_gas * 12 * 5.3 +
    d.meat_meals * 52 * 2.5 +
    d.waste_kg * 52 * 0.57 * (1 - d.recycling / 100)
  { age := d.age, income := d.income, household_size := d.household_size,
    location_type := locString d.location,
    car_miles_per_week := d.car_miles,
    public_transport_usage := d.public_transport,
    flights_per_year := d.flights,
    vehicle_type := vehString d.vehicle,
    electricity_kwh_monthly := d.electricity,
    natural_gas_therms_monthly := d.natural_gas,
    home_size_sqft := d.home_size,
    renewable_energy := renewable,
    meat_meals_per_week := d.meat_meals,
    local_food_percentage := d.local_food,
    organic_food_percentage := d.organic_food,
    waste_kg_per_week := d.waste_kg,
    recycling_percentage := d.recycling,
    composting := binChoice d.composting,
    carbon_footprint := max (base + d.noise) 1000 }

/-- `generate_synthetic_data(n_samples)`, with the per-sample random draws made
explicit (`np.random.seed(42)` fixes them in the source; the theorems hold for
every draw sequence). -/
def generate_synthetic_data (rng : ℕ → Draws) (n_samples : ℕ) : List Sample :=
  (List.range n_samples).map (fun i => mkSample (rng i))

/-- Ascending stable insertion for strings (helper for `Encoder.fit`). -/
def insertStr (a : String) : List String → List String
  | [] => [a]
  | b :: t => if a < b then a :: b :: t else b :: insertStr a t

/-- Sort a list of strings ascending (numpy's sorted-unique class order). -/
def sortStrings (l : List String) : List String :=
  l.foldr insertStr []

/-- `sklearn.preprocessing.LabelEncoder` state: the sorted unique classes. -/
structure Encoder where
  classes : List String
deriving DecidableEq, Repr

/-- `LabelEncoder.fit`: classes are the sorted distinct values seen. -/
def Encoder.fit (xs : List String) : Encoder :=
  ⟨sortStrings xs.dedup⟩

/-- `LabelEncoder.transform` on one value: its index among the classes;
raises `ValueError` on a value unseen at fit time. -/
def Encoder.transform (e : Encoder) (x : String) : Except PyError ℚ :=
  match e.classes.findIdx? (fun c => c == x) with
  | some i => .ok (i : ℚ)
  | none => .error (.valueError ("y contains previously unseen labels: " ++ x))

/-- Mean of a list of rationals (`0` on the empty list, where Python
produces `nan`; never reached on a claim-relevant path). -/
def meanQ (l : List ℚ) : ℚ := l.sum / l.length

/-- Population variance of a list of rationals. -/
def varQ (l : List ℚ) : ℚ := meanQ (l.map (fun x => (x - meanQ l) ^ 2))

/-- `sklearn.preprocessing.StandardScaler` fitted state: per-column mean and
variance (the transform divides by the irrational `sqrt var` and is therefore
kept abstract in `SKLearn.scalerTransform`). -/
structure Scaler where
  mean : List ℚ
  var : List ℚ
deriving DecidableEq, Repr

/-- `StandardScaler.fit` on a non-empty row-major matrix. -/
def Scaler.fit (rows : List (List ℚ)) : Scaler :=
  let cols := rows.transpose
  ⟨cols.map meanQ, cols.map varQ⟩

/-- `sklearn.metrics.r2_score`. -/
def r2_score (y_true y_pred : List ℚ) : ℚ :=
  let ssRes := ((y_true.zip y_pred).map (fun p => (p.1 - p.2) ^ 2)).sum
  let ssTot := (y_true.map (fun y => (y - meanQ y_true) ^ 2)).sum
  1 - ssRes / ssTot

/-- Python dict assignment `d[k] = v` on an association list: replace the value
if the key exists, append otherwise. -/
def dictSet {α : Type} (l : List (String × α)) (k : String) (v : α) :
    List (String × α) :=
  if l.any (fun p => p.1 == k) then
    l.map (fun p => if p.1 == k then (k, v) else p)
  else l ++ [(k, v)]

/-- `self.feature_names`: every dataset column except `carbon_footprint`,
in dict insertion order. -/
def featureNames : List String :=
  ["age", "income", "household_size", "location_type", "car_miles_per_week",
   "public_transport_usage", "flights_per_year", "vehicle_type",
   "electricity_kwh_monthly", "natural_gas_therms_monthly", "home_size_sqft",
   "renewable_energy", "meat_meals_per_week", "local_food_percentage",
   "organic_food_percentage", "waste_kg_per_week", "recycling_percentage",
   "composting"]

/-- A fitted regression model, seen purely as its prediction function. -/
abbrev Model := List ℚ → ℚ

/-- The mutable state of `CarbonFootprintPredictor`. -/
structure Predictor where
  models : List (String × Model)
  scalers : List (String × Scaler)
  encoders : List (String × Encoder)
  feature_names : List String

/-- The external sklearn/xgboost/lightgbm computations `train_models` and
`predict_footprint` delegate to: the scaler's irrational standardisation, the
shuffled 80/20 split, the four regression fitters, 5-fold cross-validation and
floating-point `sqrt`. The theorems hold for every behaviour of these. -/
structure SKLearn where
  scalerTransform : Scaler → List ℚ → List ℚ
  trainTestSplit : List (List ℚ) → List ℚ →
    List (List ℚ) × List (List ℚ) × List ℚ × List ℚ
  fit : String → List (List ℚ) → List ℚ → Model
  crossValScore : String → List (List ℚ) → List ℚ → List ℚ
  sqrtA : ℚ → ℚ

/-- The per-model entries of the metrics report returned by `train_models`. -/
structure Metrics where
  mse : ℚ
  rmse : ℚ
  r2 : ℚ
  cv_mean : ℚ
  cv_std : ℚ

/-- Row of encoded feature values for one sample, in `feature_names` order
(`preprocess_data` replaces the two categorical columns by their codes). -/
def encodedRow (encLoc encVeh : Encoder) (s : Sample) : Except PyError (List ℚ) := do
  let locv ← encLoc.transform s.location_type
  let vehv ← encVeh.transform s.vehicle_type
  pure [s.age, s.income, s.household_size, locv, s.car_miles_per_week,
        s.public_transport_usage, s.flights_per_year, vehv,
        s.electricity_kwh_monthly, s.natural_gas_therms_monthly,
        s.home_size_sqft, s.renewable_energy, s.meat_meals_per_week,
        s.local_food_percentage, s.organic_food_percentage,
        s.waste_kg_per_week, s.recycling_percentage, s.composting]

/-- The `models_to_train` dict keys, in insertion order. -/
def model_names : List String :=
  ["random_forest", "gradient_boosting", "xgboost", "lightgbm"]

/-- `train_models`: preprocess (fit encoders, then the scaler — which is where
sklearn rejects a zero-row dataset with `ValueError`), split 80/20, fit the
four model variants, compute per-model metrics, and store the fitted state. -/
def train_models (sk : SKLearn) (self : Predictor) (df : List Sample) :
    Except PyError (Predictor × List (String × Metrics)) := do
  let encLoc := Encoder.fit (df.map (fun s => s.location_type))
  let encVeh := Encoder.fit (df.map (fun s => s.vehicle_type))
  let featRows ← df.mapM (encodedRow encLoc encVeh)
  if featRows.isEmpty then
    -- StandardScaler().fit_transform raises on a matrix with zero rows
    throw (.valueError
      "Found array with 0 sample(s) while a minimum of 1 is required by StandardScaler")
  else
    let scaler := Scaler.fit featRows
    let X := featRows.map (sk.scalerTransform scaler)
    let y := df.map (fun s => s.carbon_footprint)
    let split := sk.trainTestSplit X y
    let X_train := split.1
    let X_test := split.2.1
    let y_train := split.2.2.1
    let y_test := split.2.2.2
    let trained := model_names.map (fun nm => (nm, sk.fit nm X_train y_train))
    let results := trained.map (fun p =>
      let y_pred := X_test.map p.2
      let mse := meanQ ((y_test.zip y_pred).map (fun q => (q.1 - q.2) ^ 2))
      let cv := sk.crossValScore p.1 X_train y_train
      (p.1, { mse := mse, rmse := sk.sqrtA mse, r2 := r2_score y_test y_pred,
              cv_mean := meanQ cv, cv_std := sk.sqrtA (varQ cv) : Metrics }))
    pure ({ models := trained.foldl (fun acc p => dictSet acc p.1 p.2) self.models,
            scalers := dictSet self.scalers "features" scaler,
            encoders := dictSet (dictSet self.encoders "location_type" encLoc)
              "vehicle_type" encVeh,
            feature_names := featureNames }, results)

/-- The single-row user DataFrame of `predict_footprint`, as an association
list from column name to (encoded) value, in the schema's column order. -/
def featureAssoc (locv vehv : ℚ) (u : FeatureVector) : List (String × ℚ) :=
  [("age", u.age), ("income", u.income), ("household_size", u.household_size),
   ("location_type", locv), ("car_miles_per_week", u.car_miles_per_week),
   ("public_transport_usage", u.public_transport_usage),
   ("flights_per_year", u.flights_per_year), ("vehicle_type", vehv),
   ("electricity_kwh_monthly", u.electricity_kwh_monthly),
   ("natural_gas_therms_monthly", u.natural_gas_therms_monthly),
   ("home_size_sqft", u.home_size_sqft),
   ("renewable_energy", u.renewable_energy),
   ("meat_meals_per_week", u.meat_meals_per_week),
   ("local_food_percentage", u.local_food_percentage),
   ("organic_food_percentage", u.organic_food_percentage),
   ("waste_kg_per_week", u.waste_kg_per_week),
   ("recycling_percentage", u.recycling_percentage),
   ("composting", u.composting)]

/-- Column selection `df_processed[self.feature_names]`: raises `KeyError` on
a name absent from the frame. -/
def selectCols (assoc : List (String × ℚ)) (names : List String) :
    Except PyError (List ℚ) :=
  names.mapM (fun nm =>
    match assoc.lookup nm with
    | some v => .ok v
    | none => .error (.keyError nm))

/-- `predict_footprint(user_data, model_name)`: the single
`if model_name not in self.models` guard raises
`ValueError("Model {model_name} not trained yet")` whether the bundle was
never trained or merely lacks this variant; otherwise encode the categorical
fields with the stored encoders (a missing encoder leaves a string column that
later fails float conversion, modelled as an immediate `TypeError`), scale if a
scaler is stored, and apply the model. -/
def predict_footprint (sk : SKLearn) (self : Predictor) (user_data : FeatureVector)
    (model_name : String) : Except PyError ℚ :=
  match self.models.lookup model_name with
  | none => .error (.valueError ("Model " ++ model_name ++ " not trained yet"))
  | some m => do
      let locv ← match self.encoders.lookup "location_type" with
        | some e => e.transform user_data.location_type
        | none => .error (.typeError "could not convert string to float")
      let vehv ← match self.encoders.lookup "vehicle_type" with
        | some e => e.transform user_data.vehicle_type
        | none => .error (.typeError "could not convert string to float")
      let assoc := featureAssoc locv vehv user_data
      let row ← match self.scalers.lookup "features" with
        | some sc => do
            let vals ← selectCols assoc self.feature_names
            pure (sk.scalerTransform sc vals)
        | none => selectCols assoc self.feature_names
      pure (m row)

/-- Slope of the degree-1 least-squares fit of `np.polyfit(x, ys, 1)` with
`x = 0, 1, ..., k-1`. -/
def polyfitSlope (ys : List ℚ) : ℚ :=
  let k : ℚ := ys.length
  let xs : List ℚ := (List.range ys.length).map (fun i => (i : ℚ))
  let sx := xs.sum
  let sy := ys.sum
  let sxy := ((xs.zip ys).map (fun p => p.1 * p.2)).sum
  let sxx := (xs.map (fun x => x * x)).sum
  (k * sxy - sx * sy) / (k * sxx - sx * sx)

/-- `predict_future_trend(historical_data, days_ahead)` with the per-step
Gaussian noise draws made explicit (`noise i` is the draw for step `i+1`;
`np.random.normal(0, 0.05 * |projected|)` may yield any real). Python's
`historical_data[-1]` raises `IndexError` on an empty list — in both branches,
since the short-history branch evaluates it before multiplying the list. -/
def predict_future_trend (noise : ℕ → ℚ) (historical_data : List ℚ)
    (days_ahead : ℕ) : Except PyError (List ℚ) :=
  if historical_data.length < 7 then
    match historical_data.getLast? with
    | none => .error (.indexError "list index out of range")
    | some last => .ok (List.replicate days_ahead last)
  else
    let recent_data := historical_data.drop (historical_data.length - 30)
    let trend_slope := polyfitSlope recent_data
    match historical_data.getLast? with
    | none => .error (.indexError "list index out of range")
    | some last_value =>
        .ok ((List.range days_ahead).map (fun (j : ℕ) =>
          let projected_value := last_value + trend_slope * ((j : ℚ) + 1)
          let variation := noise j
          max 0 (projected_value + variation)))

/-! ## Concrete values used by witnesses and counterexamples -/

/-- A freshly constructed, untrained `CarbonFootprintPredictor`. -/
def emptyPredictor : Predictor := ⟨[], [], [], []⟩

/-- A bundle holding one trained variant (`xgboost`), used to show that an
unknown-variant query fails exactly like an untrained-bundle query. -/
def xgboostOnlyPredictor : Predictor :=
  { models := [("xgboost", fun _ => 0)], scalers := [], encoders := [],
    feature_names := featureNames }

/-- A concrete stand-in for the external sklearn components. -/
def skStub : SKLearn :=
  { scalerTransform := fun _ v => v,
    trainTestSplit := fun X y => (X, [], y, []),
    fit := fun _ _ _ => fun _ => 0,
    crossValScore := fun _ _ _ => [],
    sqrtA := fun q => q }

/-- A concrete feature vector. -/
def fv0 : FeatureVector :=
  { age := 30, income := 50000, household_size := 2, location_type := "urban",
    car_miles_per_week := 100, public_transport_usage := 2, flights_per_year := 2,
    vehicle_type := "gasoline", electricity_kwh_monthly := 900,
    natural_gas_therms_monthly := 50, home_size_sqft := 2000,
    renewable_energy := 0, meat_meals_per_week := 10, local_food_percentage := 50,
    organic_food_percentage := 50, waste_kg_per_week := 15,
    recycling_percentage := 50, composting := 0 }

/-- A concrete draw record for the synthetic generator. -/
def draws0 : Draws :=
  { age := 30, income := 50000, household_size := 2, location := 0,
    car_miles := 100, public_transport := 2, flights := 2, vehicle := 0,
    electricity := 900, natural_gas := 50, home_size := 2000, renewable := 0,
    meat_meals := 10, local_food := 50, organic_food := 50, waste_kg := 15,
    recycling := 50, composting := 0, noise := -100000 }

/-- The energy-table recommendation whose `LED` keyword the extractor misses. -/
def ledRecText : String := "Replace incandescent bulbs with LED lighting"

/-! ## Theorems for claim C1 -/

/-- C1: for every `ActivityInput`, the `total` field of the returned
`FootprintBreakdown` equals the exact sum of the per-category values computed
from that same input, a category absent from the input contributing zero. -/
theorem C1_total_eq_sum (u : ActivityInput) :
    (calculate_total_footprint u).total =
      (u.transportation.map calculate_transportation_footprint).getD 0 +
      (u.energy.map calculate_energy_footprint).getD 0 +
      (u.food.map calculate_food_footprint).getD 0 +
      (u.waste.map calculate_waste_footprint).getD 0 := by
  rcases u with ⟨t, e, f, w⟩
  rcases t with _ | t <;> rcases e with _ | e <;> rcases f with _ | f <;>
    rcases w with _ | w <;>
    simp [calculate_total_footprint, add_assoc]

/-- Sanity check: the spec's concrete calculator scenario. -/
example :
    calculate_total_footprint
      { transportation := some [("car_gasoline", ⟨some 25, some 1⟩)],
        energy := some [("electricity", 30)],
        food := some [("beef", 0.2), ("vegetables", 0.5)],
        waste := some [("landfill", 1.5)] } =
      { transportation := some 10.275, energy := some 27.6, food := some 6.4,
        waste := some 0.855, total := 45.13 } := by
  simp [calculate_total_footprint, calculate_transportation_footprint,
    calculate_energy_footprint, calculate_food_footprint, calculate_waste_footprint,
    emission_factors_transportation, emission_factors_energy, emission_factors_food,
    emission_factors_waste, List.lookup]
  norm_num

/-! ## Sorting lemmas for the recommendation list -/

/-- A strict key comparison implies the non-strict descending order. -/
theorem recGe_of_gtB {a b : Recommendation}
    (h : pairGtB (priorityImpactKey a) (priorityImpactKey b) = true) : recGe a b := by
  simp [pairGtB] at h
  simp only [recGe, pairGe]
  omega

/-- Failure of the strict key comparison implies the reverse non-strict order. -/
theorem recGe_of_not_gtB {a b : Recommendation}
    (h : ¬ pairGtB (priorityImpactKey a) (priorityImpactKey b) = true) : recGe b a := by
  simp [pairGtB] at h
  simp only [recGe, pairGe]
  omega

/-- The descending key order is transitive. -/
theorem recGe_trans {a b c : Recommendation}
    (hab : recGe a b) (hbc : recGe b c) : recGe a c := by
  simp only [recGe, pairGe] at *
  omega

/-- Membership in an insertion. -/
theorem mem_insertDesc {x a : Recommendation} {l : List Recommendation} :
    x ∈ insertDesc a l ↔ x = a ∨ x ∈ l := by
  induction l with
  | nil => simp [insertDesc]
  | cons b t ih =>
    simp only [insertDesc]
    split
    · simp [List.mem_cons]
    · simp only [List.mem_cons, ih]
      tauto

/-- Insertion preserves the descending sortedness invariant. -/
theorem pairwise_insertDesc {a : Recommendation} {l : List Recommendation}
    (h : l.Pairwise recGe) : (insertDesc a l).Pairwise recGe := by
  induction l with
  | nil => simp [insertDesc]
  | cons b t ih =>
    rw [List.pairwise_cons] at h
    simp only [insertDesc]
    split
    next hgt =>
      rw [List.pairwise_cons]
      refine ⟨?_, List.pairwise_cons.mpr h⟩
      intro x hx
      rcases List.mem_cons.mp hx with rfl | hx
      · exact recGe_of_gtB hgt
      · exact recGe_trans (recGe_of_gtB hgt) (h.1 x hx)
    next hgt =>
      rw [List.pairwise_cons]
      refine ⟨?_, ih h.2⟩
      intro x hx
      rcases mem_insertDesc.mp hx with rfl | hx
      · exact recGe_of_not_gtB hgt
      · exact h.1 x hx

/-- The insertion-sort fold preserves sortedness of the accumulator. -/
theorem pairwise_foldl_insertDesc (l : List Recommendation) :
    ∀ acc, acc.Pairwise recGe →
      (l.foldl (fun acc a => insertDesc a acc) acc).Pairwise recGe := by
  induction l with
  | nil => intro acc h; simpa using h
  | cons a t ih => intro acc h; exact ih _ (pairwise_insertDesc h)

/-- `sortDesc` output is descending in `(priority, |impact_estimate|)`. -/
theorem pairwise_sortDesc (l : List Recommendation) :
    (sortDesc l).Pairwise recGe :=
  pairwise_foldl_insertDesc l [] (by simp)

/-- The insertion-sort fold permutes membership. -/
theorem mem_foldl_insertDesc (l : List Recommendation) :
    ∀ acc x, (x ∈ l.foldl (fun acc a => insertDesc a acc) acc ↔ x ∈ acc ∨ x ∈ l) := by
  induction l with
  | nil => intro acc x; simp
  | cons a t ih =>
    intro acc x
    rw [List.foldl_cons, ih, mem_insertDesc]
    simp [List.mem_cons]
    tauto

/-- `sortDesc` preserves membership. -/
theorem mem_sortDesc {x : Recommendation} {l : List Recommendation} :
    x ∈ sortDesc l ↔ x ∈ l := by
  rw [sortDesc, mem_foldl_insertDesc]
  simp

/-! ## Theorems for claim C2 -/

/-- Every item of the footprint dict carries one of the five known keys. -/
theorem breakdownItems_names (fp : FootprintBreakdown) :
    ∀ p ∈ breakdownItems fp,
      p.1 ∈ ["transportation", "energy", "food", "waste", "total"] := by
  intro p hp
  rcases fp with ⟨t, e, f, w, tot⟩
  rcases t with _ | tv <;> rcases e with _ | ev <;> rcases f with _ | fv <;>
    rcases w with _ | wv <;>
    · simp [breakdownItems] at hp
      rcases hp with rfl | rfl | rfl | rfl | rfl <;> simp

/-- Every recommendation built for a category is tagged with its title-cased
category name. -/
theorem mem_recsForCategory {r : Recommendation} {c : String} {e : ℚ}
    (h : r ∈ recsForCategory c e) : r.category = pyTitle c := by
  simp only [recsForCategory, List.mem_map] at h
  obtain ⟨s, _, rfl⟩ := h
  rfl

/-- C2: for every `FootprintBreakdown`, `get_personalized_recommendations`
returns at most 8 recommendations, none of them for the `total`
pseudo-category (each is tagged with one of the four title-cased activity
categories), and the list is sorted descending by the lexicographic pair
`(priority, |impact_estimate|)`. -/
theorem C2_recommendations_spec (fp : FootprintBreakdown) :
    (get_personalized_recommendations fp).length ≤ 8 ∧
    (∀ r ∈ get_personalized_recommendations fp,
      r.category ∈ ["Transportation", "Energy", "Food", "Waste"] ∧
      r.category ≠ "total" ∧ r.category ≠ "Total") ∧
    (get_personalized_recommendations fp).Pairwise recGe := by
  refine ⟨List.length_take_le 8 _, ?_, ?_⟩
  · intro r hr
    have hr' : r ∈ sortDesc ((breakdownItems fp).flatMap recsForItem) :=
      List.mem_of_mem_take hr
    rw [mem_sortDesc, List.mem_flatMap] at hr'
    obtain ⟨p, hp, hrp⟩ := hr'
    have hname := breakdownItems_names fp p hp
    rw [recsForItem] at hrp
    split at hrp
    · simp at hrp
    next hne =>
      have hcat := mem_recsForCategory hrp
      simp only [List.mem_cons, List.not_mem_nil, or_false] at hname
      rcases hname with h1 | h1 | h1 | h1 | h1 <;> rw [h1] at hcat <;>
        first
          | (exact absurd h1 hne)
          | (rw [hcat]; refine ⟨by decide, by decide, by decide⟩)
  · exact (pairwise_sortDesc _).sublist (List.take_sublist 8 _) |>.imp (fun h => h)

/-! ## Theorems for claim C3 -/

/-- C3: `generate_action_plan` selects at most 3 Low-difficulty actions for
weeks 1–2, at most 3 Medium for weeks 3–6, at most 2 High for weeks 7–12;
each phase's `expected_reduction` is the sum of `|impact_estimate|` over
exactly that phase's selected actions; and `total_potential_reduction` is the
sum of the three phase reductions. -/
theorem C3_action_plan_spec (recommendations : List Recommendation) :
    let plan := generate_action_plan recommendations
    (plan.weeks_1_2.actions.length ≤ 3 ∧
      ∀ r ∈ plan.weeks_1_2.actions, r.difficulty = "Low") ∧
    (plan.weeks_3_6.actions.length ≤ 3 ∧
      ∀ r ∈ plan.weeks_3_6.actions, r.difficulty = "Medium") ∧
    (plan.weeks_7_12.actions.length ≤ 2 ∧
      ∀ r ∈ plan.weeks_7_12.actions, r.difficulty = "High") ∧
    plan.weeks_1_2.expected_reduction = sumAbsImpact plan.weeks_1_2.actions ∧
    plan.weeks_3_6.expected_reduction = sumAbsImpact plan.weeks_3_6.actions ∧
    plan.weeks_7_12.expected_reduction = sumAbsImpact plan.weeks_7_12.actions ∧
    plan.total_potential_reduction =
      plan.weeks_1_2.expected_reduction + plan.weeks_3_6.expected_reduction +
        plan.weeks_7_12.expected_reduction := by
  refine ⟨⟨List.length_take_le 3 _, ?_⟩, ⟨List.length_take_le 3 _, ?_⟩,
    ⟨List.length_take_le 2 _, ?_⟩, rfl, rfl, rfl, rfl⟩ <;>
    · intro r hr
      have := List.mem_of_mem_take hr
      have hmem := List.mem_filter.mp this
      simpa using hmem.2

/-! ## Theorems for claim C9 -/

/-- C9 counterexample: the claim's fully case-insensitive reading fails on the
code. The energy recommendation text contains the keyword `LED` verbatim (and
hence in some letter casing), yet `_extract_action_key` returns the fallback
`renewable_energy` — because the text is lowercased while the keyword is
matched as written — where the spec's case-insensitive match (`extract_action_key_specCI`)
would return `led_lighting`. -/
theorem C9_counterexample :
    strContainsSub ledRecText "LED" = true ∧
    extract_action_key ledRecText "energy" = "renewable_energy" ∧
    extract_action_key_specCI ledRecText "energy" = "led_lighting" := by
  refine ⟨rfl, rfl, rfl⟩

/-- C9 amended: `_extract_action_key` matches each keyword *as written* against
the lowercased text (case-insensitive only in the text's casing; keywords with
uppercase letters never match); it always returns an action key from the
category's table without error, and when no keyword matches it returns the
category's first action key. -/
theorem C9_amended (text c : String)
    (hc : c ∈ ["transportation", "energy", "food", "waste"]) :
    extract_action_key text c ∈ (action_mapping c).map (fun kv => kv.2) ∧
    ((∀ kv ∈ action_mapping c, strContainsSub (lowerStr text) kv.1 = false) →
      extract_action_key text c =
        ((action_mapping c).map (fun kv => kv.2)).headD "") := by
  constructor
  · simp only [extract_action_key]
    cases hfind : (action_mapping c).find?
        (fun kv => strContainsSub (lowerStr text) kv.1) with
    | some kv =>
      simp only [hfind]
      exact List.mem_map_of_mem _ (List.mem_of_find?_eq_some hfind)
    | none =>
      simp only [hfind]
      simp only [List.mem_cons, List.not_mem_nil, or_false] at hc
      rcases hc with rfl | rfl | rfl | rfl <;> decide
  · intro hnone
    have hfind : (action_mapping c).find?
        (fun kv => strContainsSub (lowerStr text) kv.1) = none := by
      rw [List.find?_eq_none]
      intro kv hkv
      simp [hnone kv hkv]
    simp only [extract_action_key, hfind]

/-- C9 witness: a concrete text matching no keyword of the `waste` table maps
to that table's first action key. -/
theorem C9_witness :
    extract_action_key "hello world" "waste" ∈
      (action_mapping "waste").map (fun kv => kv.2) ∧
    ((∀ kv ∈ action_mapping "waste",
        strContainsSub (lowerStr "hello world") kv.1 = false) →
      extract_action_key "hello world" "waste" =
        ((action_mapping "waste").map (fun kv => kv.2)).headD "") :=
  C9_amended "hello world" "waste" (by decide)

/-! ## Theorems for claims C4, C5, C10 (trend forecaster) -/

/-- C4 counterexample: the empty history has length `< 7`, yet
`predict_future_trend` raises `IndexError` instead of returning a flat
projection, so the claim's "every history with `len(history) < 7` ... raises
no error" is false. -/
theorem C4_counterexample :
    predict_future_trend (fun _ => 0) ([] : List ℚ) 5 =
      .error (.indexError "list index out of range") := rfl

/-- C4 amended: for every *non-empty* history shorter than 7 entries and every
`days_ahead`, the forecast returns exactly `days_ahead` copies of the last
history value and raises no error. -/
theorem C4_amended (noise : ℕ → ℚ) (h : List ℚ) (d : ℕ) (hne : h ≠ [])
    (hlen : h.length < 7) :
    predict_future_trend noise h d = .ok (List.replicate d (h.getLast hne)) := by
  simp only [predict_future_trend, if_pos hlen, List.getLast?_eq_getLast h hne]

/-- C4 witness: a one-entry history projected three days ahead. -/
theorem C4_witness :
    predict_future_trend (fun _ => 0) [(5 : ℚ)] 3 = .ok [5, 5, 5] := by
  have h := C4_amended (fun _ => 0) [(5 : ℚ)] 3 (by simp) (by simp)
  simpa [List.replicate] using h

/-- C5 counterexample: with the non-empty history `[-1]` the short-history
branch copies the last value verbatim, so the forecast contains a negative
value; the claim's "every value ≥ 0 for every non-empty history" is false. -/
theorem C5_counterexample :
    predict_future_trend (fun _ => 0) [(-1 : ℚ)] 1 = .ok [-1] ∧
      ¬ (0 ≤ (-1 : ℚ)) := by
  constructor
  · rfl
  · norm_num

/-- C5 amended: for every non-empty history whose *last value is non-negative*
and every `days_ahead`, the forecast has length exactly `days_ahead` and every
value is ≥ 0, regardless of the Gaussian noise values drawn (the ≥ 7 branch
floors at 0 unconditionally; the < 7 branch copies the last value). -/
theorem C5_amended (noise : ℕ → ℚ) (h : List ℚ) (d : ℕ) (hne : h ≠ [])
    (hlast : 0 ≤ h.getLast hne) :
    ∃ l, predict_future_trend noise h d = .ok l ∧ l.length = d ∧
      ∀ x ∈ l, 0 ≤ x := by
  unfold predict_future_trend
  split
  · rw [List.getLast?_eq_getLast h hne]
    refine ⟨_, rfl, by simp, ?_⟩
    intro x hx
    rw [List.eq_of_mem_replicate hx]
    exact hlast
  · rw [List.getLast?_eq_getLast h hne]
    refine ⟨_, rfl, by simp, ?_⟩
    intro x hx
    simp only [List.mem_map] at hx
    obtain ⟨j, _, rfl⟩ := hx
    exact le_max_left 0 _

/-- C5 witness: a one-entry non-negative history, two days ahead, with a
large negative noise draw. -/
theorem C5_witness :
    ∃ l, predict_future_trend (fun _ => -100) [(5 : ℚ)] 2 = .ok l ∧
      l.length = 2 ∧ ∀ x ∈ l, 0 ≤ x :=
  C5_amended (fun _ => -100) [(5 : ℚ)] 2 (by simp) (by norm_num)

/-- C10: on an empty history, `predict_future_trend` reaches the low-data
branch, evaluates `historical_data[-1]` and raises `IndexError` for every
`days_ahead`, instead of returning a flat projection: the documented low-data
fallback has an implicit non-empty-history precondition. -/
theorem C10_empty_history_index_error (noise : ℕ → ℚ) (d : ℕ) :
    predict_future_trend noise [] d =
      .error (.indexError "list index out of range") := rfl

/-! ## Theorems for claims C6, C7 (predictor error paths) -/

/-- C6 counterexample: prediction on a never-trained bundle and prediction
with an unknown variant on a trained bundle raise the *same* single error —
`ValueError("Model {name} not trained yet")` from the one
`model_name not in self.models` guard — not two distinct errors. -/
theorem C6_counterexample :
    predict_footprint skStub emptyPredictor fv0 "xgboost" =
      .error (.valueError "Model xgboost not trained yet") ∧
    predict_footprint skStub xgboostOnlyPredictor fv0 "lightgbm" =
      .error (.valueError "Model lightgbm not trained yet") ∧
    errKind (predict_footprint skStub emptyPredictor fv0 "xgboost") =
      errKind (predict_footprint skStub xgboostOnlyPredictor fv0 "lightgbm") := by
  refine ⟨rfl, rfl, rfl⟩

/-- C6 amended: whenever the requested variant is absent from `self.models` —
whether the bundle was never trained or the variant name is simply unknown —
`predict_footprint` raises the single error
`ValueError("Model {model_name} not trained yet")`; the two conditions are not
distinguished. -/
theorem C6_amended (sk : SKLearn) (self : Predictor) (u : FeatureVector)
    (name : String) (h : self.models.lookup name = none) :
    predict_footprint sk self u name =
      .error (.valueError ("Model " ++ name ++ " not trained yet")) := by
  simp only [predict_footprint, h]

/-- C6 witness: the guard fires on a freshly constructed bundle. -/
theorem C6_witness :
    predict_footprint skStub emptyPredictor fv0 "xgboost" =
      .error (.valueError ("Model " ++ "xgboost" ++ " not trained yet")) :=
  C6_amended skStub emptyPredictor fv0 "xgboost" rfl

/-- C7: training on a dataset with zero rows fails — sklearn's scaler rejects
a zero-sample matrix with a `ValueError` (the spec's `EmptyDatasetError`) —
and the error propagates to the caller, for every behaviour of the external
ML components and every prior bundle state. -/
theorem C7_empty_dataset_error (sk : SKLearn) (self : Predictor) :
    train_models sk self [] =
      .error (.valueError
        "Found array with 0 sample(s) while a minimum of 1 is required by StandardScaler") := rfl

/-! ## Theorems for claim C8 (synthetic data generator) -/

/-- C8: for every draw sequence and every `n ≥ 1`,
`generate_synthetic_data(n)` returns exactly `n` samples, every
`location_type` lies in `{urban, suburban, rural}`, every `vehicle_type` lies
in `{gasoline, diesel, electric, hybrid}`, and every sample's
`carbon_footprint` is at least 1000. -/
theorem C8_generator_spec (rng : ℕ → Draws) (n : ℕ) (hn : 1 ≤ n) :
    (generate_synthetic_data rng n).length = n ∧
    ∀ s ∈ generate_synthetic_data rng n,
      s.location_type ∈ locationTypes ∧ s.vehicle_type ∈ vehicleTypes ∧
      1000 ≤ s.carbon_footprint := by
  refine ⟨by simp [generate_synthetic_data], ?_⟩
  intro s hs
  simp only [generate_synthetic_data, List.mem_map] at hs
  obtain ⟨i, _, rfl⟩ := hs
  refine ⟨?_, ?_, le_max_right _ _⟩
  · show locString (rng i).location ∈ locationTypes
    have hall : ∀ j : Fin 3, locString j ∈ locationTypes := by decide
    exact hall _
  · show vehString (rng i).vehicle ∈ vehicleTypes
    have hall : ∀ j : Fin 4, vehString j ∈ vehicleTypes := by decide
    exact hall _

/-- C8 witness: one sample from a concrete draw (with a hugely negative noise
draw, exercising the floor at 1000). -/
theorem C8_witness :
    (generate_synthetic_data (fun _ => draws0) 1).length = 1 ∧
    ∀ s ∈ generate_synthetic_data (fun _ => draws0) 1,
      s.location_type ∈ locationTypes ∧ s.vehicle_type ∈ vehicleTypes ∧
      1000 ≤ s.carbon_footprint :=
  C8_generator_spec (fun _ => draws0) 1 (by decide)
